import Mathlib

/-!
Verification development for the AI Tutor pipeline orchestrator
(repository `AI_TUTOR_CANTILEVER_LAB`).

The JavaScript sources are shallowly embedded as Lean functions:

* `PipelineState`        — the shared mutable record threaded through the stages
                           (schema comment in the graph-wiring module).
* `createInitialState`   — the graph module's `createInitialState(query, duration)`.
* `runSupervisor`        — `src/server/agents/supervisor.js` (graph classifier).
* `apiRunSupervisor`     — the classifier of the serverless twin `src/api/chat.js`.
* `runResearcher`        — the content stage (researcher agent).
* `runMediaEngine`       — `src/server/agents/mediaEngine.js`, with its
                           template renderer `generateTopicSVG` and helpers.
* `runPipeline`          — the graph wiring: supervisor, then conditional route
                           (`routeAfterSupervisor`), then researcher, then media.

External LLM calls are inputs of the embedding: each stage receives the outcome
of its call (`Except` for throw-vs-return, plus a tagged parse outcome where the
source parses JSON out of the response).  JavaScript `null`/`undefined` fields
are `Option`; JavaScript truthiness on strings/numbers is modelled explicitly
(`jsOrStr`, `jsOrInt`, `jsFalsyOptStr`).  Filesystem writes performed by the
media stage are reified as an explicit effect list.
-/

/-! ## JavaScript-value helpers -/

/-- JS `v || fallback` on a possibly-absent number (`none` models
`undefined`/`NaN`): falsy (absent or `0`) yields the fallback. -/
def jsOrInt (v : Option Int) (fallback : Int) : Int :=
  match v with
  | none => fallback
  | some n => if n = 0 then fallback else n

/-- JS `v || fallback` on a possibly-absent string: falsy (absent or `""`)
yields the fallback. -/
def jsOrStr (v : Option String) (fallback : String) : String :=
  match v with
  | none => fallback
  | some s => if s = "" then fallback else s

/-- JS truthiness test `!v` on a nullable string: `null`/`undefined` and the
empty string are falsy. -/
def jsFalsyOptStr : Option String → Bool
  | none => true
  | some s => s == ""

/-- JS template-literal interpolation of a nullable string: `null` prints as
the text `null`. -/
def jsShowOptStr : Option String → String
  | none => "null"
  | some s => s

/-- JS whitespace (the characters relevant to the embedded sources). -/
def isJsWs (c : Char) : Bool :=
  c == ' ' || c == '\t' || c == '\n' || c == '\r'

/-- JS `String.prototype.trim`. -/
def jsTrim (s : String) : String :=
  String.mk (((s.toList.dropWhile isJsWs).reverse.dropWhile isJsWs).reverse)

/-- JS `s.substring(0, n)` (code points; the embedded inputs are BMP text). -/
def jsSubstring0 (s : String) (n : Nat) : String :=
  String.mk (s.toList.take n)

/-! ## Pipeline state

Mirrors the shared-state schema of the graph-wiring module: every field of the
channel record, with JS `null` as `none`. -/

structure PipelineState where
  query : String
  duration : Int
  topic : Option String
  rejected : Bool
  rejectionReason : Option String
  classification : Option String
  markdown : Option String
  imageUrl : Option String
  audioText : Option String
  mediaFailed : Bool
deriving Repr, DecidableEq

/-- `createInitialState(query, duration)` from the graph-wiring module:
`duration: Math.min(5, Math.max(2, duration || 3))`, all other fields at their
schema defaults. -/
def createInitialState (query : String) (duration : Option Int) : PipelineState :=
  { query := query
    duration := min 5 (max 2 (jsOrInt duration 3))
    topic := none
    rejected := false
    rejectionReason := none
    classification := none
    markdown := none
    imageUrl := none
    audioText := none
    mediaFailed := false }

/-! ## Classifier stage (supervisor agent) -/

/-- The JSON object shape the supervisor parses from the LLM response:
`classification`, `reason`, `detectedTopic` (the prompt allows JSON `null`,
modelled as `none`). -/
structure ClassifierResponse where
  classification : String
  reason : String
  detectedTopic : Option String
deriving Repr, DecidableEq

/-- `runSupervisor(state)` from `src/server/agents/supervisor.js`.

The argument `resp` is the combined outcome of the LLM call and the
`JSON.parse` of the (fence-stripped) response text: `Except.error` covers both
a throwing `model.invoke` and a throwing `JSON.parse`, since both land in the
single `catch` block of the source. -/
def runSupervisor (resp : Except String ClassifierResponse)
    (state : PipelineState) : PipelineState :=
  match resp with
  | Except.ok result =>
    if result.classification ≠ "placement_topic" then
      { state with
        rejected := true
        rejectionReason := some (if result.classification = "harmful"
          then "⚠️ This query was flagged as harmful: " ++ result.reason
          else "🚫 This query is not related to placement preparation: "
            ++ result.reason)
        classification := some result.classification }
    else
      { state with
        rejected := false
        topic := some state.query
        classification := some result.classification }
  | Except.error _ =>
      { state with
        rejected := false
        topic := some state.query
        classification := some "placement_topic" }

/-- Result record of the serverless classifier in `src/api/chat.js` (it returns
a fresh object, not a threaded state). -/
structure ApiSupervisorResult where
  rejected : Bool
  rejectionReason : Option String
  classification : String
  topic : Option String
deriving Repr, DecidableEq

/-- `runSupervisor(query)` from the serverless twin `src/api/chat.js`: same
decision rule, but on acceptance `topic: result.detectedTopic || query`.
(In that file a failing call or parse is not caught inside the function; this
embedding covers the parsed-response path.) -/
def apiRunSupervisor (query : String) (result : ClassifierResponse) :
    ApiSupervisorResult :=
  if result.classification ≠ "placement_topic" then
    { rejected := true
      rejectionReason := some (if result.classification = "harmful"
        then "⚠️ This query was flagged as harmful: " ++ result.reason
        else "🚫 This query is not related to placement preparation: "
          ++ result.reason)
      classification := result.classification
      topic := none }
  else
    { rejected := false
      rejectionReason := none
      classification := result.classification
      topic := some (jsOrStr result.detectedTopic query) }

/-! ## Content stage (researcher agent) -/

/-- `runResearcher(state)`: skip when rejected; otherwise the trimmed LLM
response becomes `markdown`, and a throwing call degrades to an apologetic
Markdown fragment naming the topic and the error message. -/
def runResearcher (resp : Except String String) (state : PipelineState) :
    PipelineState :=
  if state.rejected then state
  else
    match resp with
    | Except.ok content => { state with markdown := some (jsTrim content) }
    | Except.error msg =>
      let fallback :=
        "## ⚠️ Content Generation Error\n\nWe encountered an issue generating content for \""
          ++ jsShowOptStr state.topic
          ++ "\". Please try again.\n\n*Error: " ++ msg ++ "*"
      { state with markdown := some fallback }

/-! ## Template renderer: escaping -/

/-- The apostrophe character (written via its code point). -/
def apos : Char := Char.ofNat 39

/-- Left and right curly brace characters (written via their code points). -/
def lbrace : Char := Char.ofNat 123

def rbrace : Char := Char.ofNat 125

/-- Per-character escape table of `escapeXml`.  The source chains five global
`replace` calls, `&` first; since none of the inserted entities contains a
later-replaced character, the chain equals this single character map. -/
def escapeChar (c : Char) : String :=
  if c == '&' then "&amp;"
  else if c == '<' then "&lt;"
  else if c == '>' then "&gt;"
  else if c == '"' then "&quot;"
  else if c == apos then "&apos;"
  else String.mk [c]

/-- `escapeXml(str)` from `src/server/agents/mediaEngine.js`. -/
def escapeXml (s : String) : String :=
  String.join (s.toList.map escapeChar)

/-- A text fragment is well escaped when it contains no raw `<`, `>`, `"`,
`'`, and every `&` begins one of the five escape entities.  This is the
checker used to state the spec's escaping property. -/
def wellEscapedChars : List Char → Bool
  | [] => true
  | '&' :: 'a' :: 'm' :: 'p' :: ';' :: rest => wellEscapedChars rest
  | '&' :: 'l' :: 't' :: ';' :: rest => wellEscapedChars rest
  | '&' :: 'g' :: 't' :: ';' :: rest => wellEscapedChars rest
  | '&' :: 'q' :: 'u' :: 'o' :: 't' :: ';' :: rest => wellEscapedChars rest
  | '&' :: 'a' :: 'p' :: 'o' :: 's' :: ';' :: rest => wellEscapedChars rest
  | c :: rest =>
    if c == '&' || c == '<' || c == '>' || c == '"' || c == apos then false
    else wellEscapedChars rest

def wellEscaped (s : String) : Bool :=
  wellEscapedChars s.toList

/-- Substring containment over the underlying character lists. -/
def containsChars (needle : List Char) : List Char → Bool
  | [] => needle.isEmpty
  | c :: rest => needle.isPrefixOf (c :: rest) || containsChars needle rest

def containsStr (hay needle : String) : Bool :=
  containsChars needle.toList hay.toList

/-! ## Template renderer: themes -/

/-- One entry of `CATEGORY_THEMES`: background gradient stops, two accent
colors, an icon glyph and the visual-motif selector. -/
structure Theme where
  gradient0 : String
  gradient1 : String
  gradient2 : String
  accent : String
  accentAlt : String
  icon : String
  visualType : String
deriving Repr, DecidableEq

def dsaTheme : Theme :=
  ⟨"#0f0c29", "#302b63", "#24243e", "#7c5dfa", "#a78bfa", "🌳", "tree"⟩

def webTheme : Theme :=
  ⟨"#0c1220", "#1a365d", "#1e3a5f", "#3b82f6", "#06b6d4", "🌐", "stack"⟩

def systemDesignTheme : Theme :=
  ⟨"#0c0c1d", "#1b1b4b", "#2d1b69", "#e879f9", "#a855f7", "🏗️", "architecture"⟩

def databaseTheme : Theme :=
  ⟨"#0c1a0c", "#1a3a2a", "#0d2818", "#10b981", "#34d399", "🗄️", "table"⟩

def osTheme : Theme :=
  ⟨"#1a0c0c", "#3a1a1a", "#2d1420", "#f59e0b", "#fbbf24", "⚙️", "process"⟩

def networkingTheme : Theme :=
  ⟨"#0c1a20", "#1a2d3d", "#0d2d3a", "#06b6d4", "#22d3ee", "🔗", "network"⟩

def oopTheme : Theme :=
  ⟨"#1a0c20", "#2d1b40", "#3a1c5a", "#c084fc", "#e879f9", "🔷", "class"⟩

def generalTheme : Theme :=
  ⟨"#0c0c1d", "#1a1040", "#1e1050", "#7c5dfa", "#e879f9", "💡", "general"⟩

/-- The `CATEGORY_THEMES` lookup object. -/
def CATEGORY_THEMES (cat : String) : Option Theme :=
  if cat == "dsa" then some dsaTheme
  else if cat == "web" then some webTheme
  else if cat == "system-design" then some systemDesignTheme
  else if cat == "database" then some databaseTheme
  else if cat == "os" then some osTheme
  else if cat == "networking" then some networkingTheme
  else if cat == "oop" then some oopTheme
  else if cat == "general" then some generalTheme
  else none

/-! ## Image metadata -/

/-- The `ImageMetadata` shape consumed by `generateTopicSVG`; every field may
be missing from the duck-typed parsed JSON, hence `Option`. -/
structure ImageMetadata where
  title : Option String
  subtitle : Option String
  keyConcepts : Option (List String)
  category : Option String
  codeSnippet : Option String
  interviewTip : Option String
deriving Repr, DecidableEq

/-- The deterministic fallback metadata substituted by the media stage when
the visual-metadata response fails to parse. -/
def defaultImageMetadata (topic : Option String) : ImageMetadata :=
  { title := topic
    subtitle := some "CSE Placement Preparation"
    keyConcepts := some ["Concept 1", "Concept 2", "Concept 3", "Concept 4"]
    category := some "general"
    codeSnippet := some ""
    interviewTip := some "Understand the fundamentals thoroughly." }

/-! ## Template renderer: decorative sub-routines -/

/-- `generateDotGrid()`: `x` from 40 below 700 and `y` from 40 below 560, both
in steps of 40, inner loop on `y`. -/
def generateDotGrid : String :=
  String.join (((List.range 17).map (fun k => 40 + 40 * k)).map (fun x =>
    String.join (((List.range 13).map (fun k => 40 + 40 * k)).map (fun y =>
      "<circle cx=\"" ++ toString x ++ "\" cy=\"" ++ toString y
        ++ "\" r=\"0.8\" fill=\"rgba(255,255,255,0.06)\"/>"))))

/-- `generateVisualElements(theme)`: the eight fixed decorative fragments,
selected by the theme's visual motif. -/
def generateVisualElements (theme : Theme) : String :=
  let a := theme.accent
  let b := theme.accentAlt
  if theme.visualType == "tree" then
    "\n      <!-- Binary tree visual -->\n      <g opacity=\"0.15\" transform=\"translate(480, 130)\">\n        <circle cx=\"80\" cy=\"0\" r=\"14\" stroke=\"" ++ a ++ "\" stroke-width=\"1.5\" fill=\"none\"/>\n        <line x1=\"70\" y1=\"14\" x2=\"40\" y2=\"40\" stroke=\"" ++ a ++ "\" stroke-width=\"1\"/>\n        <line x1=\"90\" y1=\"14\" x2=\"120\" y2=\"40\" stroke=\"" ++ a ++ "\" stroke-width=\"1\"/>\n        <circle cx=\"40\" cy=\"54\" r=\"12\" stroke=\"" ++ b ++ "\" stroke-width=\"1.5\" fill=\"none\"/>\n        <circle cx=\"120\" cy=\"54\" r=\"12\" stroke=\"" ++ b ++ "\" stroke-width=\"1.5\" fill=\"none\"/>\n        <line x1=\"32\" y1=\"66\" x2=\"16\" y2=\"86\" stroke=\"" ++ b ++ "\" stroke-width=\"1\"/>\n        <line x1=\"48\" y1=\"66\" x2=\"64\" y2=\"86\" stroke=\"" ++ b ++ "\" stroke-width=\"1\"/>\n        <line x1=\"112\" y1=\"66\" x2=\"96\" y2=\"86\" stroke=\"" ++ b ++ "\" stroke-width=\"1\"/>\n        <line x1=\"128\" y1=\"66\" x2=\"144\" y2=\"86\" stroke=\"" ++ b ++ "\" stroke-width=\"1\"/>\n        <circle cx=\"16\" cy=\"98\" r=\"10\" stroke=\"" ++ a ++ "\" stroke-width=\"1\" fill=\"none\"/>\n        <circle cx=\"64\" cy=\"98\" r=\"10\" stroke=\"" ++ a ++ "\" stroke-width=\"1\" fill=\"none\"/>\n        <circle cx=\"96\" cy=\"98\" r=\"10\" stroke=\"" ++ a ++ "\" stroke-width=\"1\" fill=\"none\"/>\n        <circle cx=\"144\" cy=\"98\" r=\"10\" stroke=\"" ++ a ++ "\" stroke-width=\"1\" fill=\"none\"/>\n      </g>"
  else if theme.visualType == "stack" then
    "\n      <!-- Web stack layers -->\n      <g opacity=\"0.15\" transform=\"translate(500, 150)\">\n        <rect x=\"0\" y=\"0\" width=\"140\" height=\"28\" rx=\"6\" stroke=\"#3b82f6\" stroke-width=\"1.5\" fill=\"none\"/>\n        <text x=\"70\" y=\"18\" text-anchor=\"middle\" font-size=\"10\" fill=\"#3b82f6\">React / Frontend</text>\n        <rect x=\"0\" y=\"36\" width=\"140\" height=\"28\" rx=\"6\" stroke=\"#10b981\" stroke-width=\"1.5\" fill=\"none\"/>\n        <text x=\"70\" y=\"54\" text-anchor=\"middle\" font-size=\"10\" fill=\"#10b981\">Express / API</text>\n        <rect x=\"0\" y=\"72\" width=\"140\" height=\"28\" rx=\"6\" stroke=\"#f59e0b\" stroke-width=\"1.5\" fill=\"none\"/>\n        <text x=\"70\" y=\"90\" text-anchor=\"middle\" font-size=\"10\" fill=\"#f59e0b\">Node.js / Server</text>\n        <rect x=\"0\" y=\"108\" width=\"140\" height=\"28\" rx=\"6\" stroke=\"#e879f9\" stroke-width=\"1.5\" fill=\"none\"/>\n        <text x=\"70\" y=\"126\" text-anchor=\"middle\" font-size=\"10\" fill=\"#e879f9\">MongoDB / DB</text>\n        <line x1=\"70\" y1=\"28\" x2=\"70\" y2=\"36\" stroke=\"rgba(255,255,255,0.3)\" stroke-width=\"1\" stroke-dasharray=\"3 2\"/>\n        <line x1=\"70\" y1=\"64\" x2=\"70\" y2=\"72\" stroke=\"rgba(255,255,255,0.3)\" stroke-width=\"1\" stroke-dasharray=\"3 2\"/>\n        <line x1=\"70\" y1=\"100\" x2=\"70\" y2=\"108\" stroke=\"rgba(255,255,255,0.3)\" stroke-width=\"1\" stroke-dasharray=\"3 2\"/>\n      </g>"
  else if theme.visualType == "architecture" then
    "\n      <!-- System design diagram -->\n      <g opacity=\"0.15\" transform=\"translate(470, 140)\">\n        <rect x=\"50\" y=\"0\" width=\"80\" height=\"24\" rx=\"4\" stroke=\"" ++ a ++ "\" stroke-width=\"1.5\" fill=\"none\"/>\n        <text x=\"90\" y=\"16\" text-anchor=\"middle\" font-size=\"9\" fill=\"" ++ a ++ "\">Load Balancer</text>\n        <line x1=\"70\" y1=\"24\" x2=\"40\" y2=\"44\" stroke=\"" ++ a ++ "\" stroke-width=\"1\" stroke-dasharray=\"3 2\"/>\n        <line x1=\"110\" y1=\"24\" x2=\"140\" y2=\"44\" stroke=\"" ++ a ++ "\" stroke-width=\"1\" stroke-dasharray=\"3 2\"/>\n        <rect x=\"10\" y=\"44\" width=\"60\" height=\"22\" rx=\"4\" stroke=\"" ++ b ++ "\" stroke-width=\"1\" fill=\"none\"/>\n        <text x=\"40\" y=\"58\" text-anchor=\"middle\" font-size=\"8\" fill=\"" ++ b ++ "\">Server 1</text>\n        <rect x=\"110\" y=\"44\" width=\"60\" height=\"22\" rx=\"4\" stroke=\"" ++ b ++ "\" stroke-width=\"1\" fill=\"none\"/>\n        <text x=\"140\" y=\"58\" text-anchor=\"middle\" font-size=\"8\" fill=\"" ++ b ++ "\">Server 2</text>\n        <line x1=\"40\" y1=\"66\" x2=\"90\" y2=\"86\" stroke=\"" ++ b ++ "\" stroke-width=\"1\" stroke-dasharray=\"3 2\"/>\n        <line x1=\"140\" y1=\"66\" x2=\"90\" y2=\"86\" stroke=\"" ++ b ++ "\" stroke-width=\"1\" stroke-dasharray=\"3 2\"/>\n        <rect x=\"55\" y=\"86\" width=\"70\" height=\"22\" rx=\"4\" stroke=\"#10b981\" stroke-width=\"1\" fill=\"none\"/>\n        <text x=\"90\" y=\"100\" text-anchor=\"middle\" font-size=\"8\" fill=\"#10b981\">Database</text>\n      </g>"
  else if theme.visualType == "table" then
    "\n      <!-- Database table visual -->\n      <g opacity=\"0.15\" transform=\"translate(490, 150)\">\n        <rect x=\"0\" y=\"0\" width=\"150\" height=\"24\" rx=\"4 4 0 0\" stroke=\"" ++ a ++ "\" stroke-width=\"1.5\" fill=\"" ++ a ++ "\" fill-opacity=\"0.2\"/>\n        <text x=\"75\" y=\"16\" text-anchor=\"middle\" font-size=\"9\" fill=\"" ++ a ++ "\" font-weight=\"600\">users_table</text>\n        <rect x=\"0\" y=\"24\" width=\"150\" height=\"80\" rx=\"0 0 4 4\" stroke=\"" ++ a ++ "\" stroke-width=\"1\" fill=\"none\"/>\n        <text x=\"10\" y=\"42\" font-size=\"8\" fill=\"" ++ b ++ "\">id  |  name  |  email</text>\n        <line x1=\"5\" y1=\"48\" x2=\"145\" y2=\"48\" stroke=\"rgba(255,255,255,0.1)\" stroke-width=\"0.5\"/>\n        <text x=\"10\" y=\"60\" font-size=\"8\" fill=\"rgba(255,255,255,0.4)\">1   |  John  |  j@mail</text>\n        <text x=\"10\" y=\"74\" font-size=\"8\" fill=\"rgba(255,255,255,0.4)\">2   |  Jane  |  j@mail</text>\n        <text x=\"10\" y=\"88\" font-size=\"8\" fill=\"rgba(255,255,255,0.4)\">3   |  Alex  |  a@mail</text>\n      </g>"
  else if theme.visualType == "network" then
    "\n      <!-- Network topology -->\n      <g opacity=\"0.15\" transform=\"translate(490, 150)\">\n        <circle cx=\"70\" cy=\"30\" r=\"16\" stroke=\"" ++ a ++ "\" stroke-width=\"1.5\" fill=\"none\"/>\n        <text x=\"70\" y=\"34\" text-anchor=\"middle\" font-size=\"8\" fill=\"" ++ a ++ "\">Router</text>\n        <circle cx=\"20\" cy=\"90\" r=\"14\" stroke=\"" ++ b ++ "\" stroke-width=\"1\" fill=\"none\"/>\n        <text x=\"20\" y=\"94\" text-anchor=\"middle\" font-size=\"7\" fill=\"" ++ b ++ "\">PC1</text>\n        <circle cx=\"70\" cy=\"100\" r=\"14\" stroke=\"" ++ b ++ "\" stroke-width=\"1\" fill=\"none\"/>\n        <text x=\"70\" y=\"104\" text-anchor=\"middle\" font-size=\"7\" fill=\"" ++ b ++ "\">PC2</text>\n        <circle cx=\"120\" cy=\"90\" r=\"14\" stroke=\"" ++ b ++ "\" stroke-width=\"1\" fill=\"none\"/>\n        <text x=\"120\" y=\"94\" text-anchor=\"middle\" font-size=\"7\" fill=\"" ++ b ++ "\">PC3</text>\n        <line x1=\"58\" y1=\"42\" x2=\"28\" y2=\"78\" stroke=\"" ++ a ++ "\" stroke-width=\"1\"/>\n        <line x1=\"70\" y1=\"46\" x2=\"70\" y2=\"86\" stroke=\"" ++ a ++ "\" stroke-width=\"1\"/>\n        <line x1=\"82\" y1=\"42\" x2=\"112\" y2=\"78\" stroke=\"" ++ a ++ "\" stroke-width=\"1\"/>\n      </g>"
  else if theme.visualType == "process" then
    "\n      <!-- OS process diagram -->\n      <g opacity=\"0.15\" transform=\"translate(490, 145)\">\n        <rect x=\"20\" y=\"0\" width=\"100\" height=\"20\" rx=\"3\" stroke=\"" ++ a ++ "\" stroke-width=\"1\" fill=\"none\"/>\n        <text x=\"70\" y=\"14\" text-anchor=\"middle\" font-size=\"8\" fill=\"" ++ a ++ "\">New</text>\n        <line x1=\"70\" y1=\"20\" x2=\"70\" y2=\"30\" stroke=\"" ++ a ++ "\" stroke-width=\"1\" marker-end=\"none\"/>\n        <text x=\"78\" y=\"28\" font-size=\"6\" fill=\"" ++ b ++ "\">admit</text>\n        <rect x=\"20\" y=\"30\" width=\"100\" height=\"20\" rx=\"3\" stroke=\"" ++ b ++ "\" stroke-width=\"1.5\" fill=\"" ++ b ++ "\" fill-opacity=\"0.15\"/>\n        <text x=\"70\" y=\"44\" text-anchor=\"middle\" font-size=\"8\" fill=\"" ++ b ++ "\">Ready</text>\n        <line x1=\"70\" y1=\"50\" x2=\"70\" y2=\"60\" stroke=\"" ++ b ++ "\" stroke-width=\"1\"/>\n        <text x=\"82\" y=\"58\" font-size=\"6\" fill=\"" ++ a ++ "\">dispatch</text>\n        <rect x=\"20\" y=\"60\" width=\"100\" height=\"20\" rx=\"3\" stroke=\"#10b981\" stroke-width=\"1.5\" fill=\"#10b981\" fill-opacity=\"0.15\"/>\n        <text x=\"70\" y=\"74\" text-anchor=\"middle\" font-size=\"8\" fill=\"#10b981\">Running</text>\n        <line x1=\"70\" y1=\"80\" x2=\"70\" y2=\"90\" stroke=\"#10b981\" stroke-width=\"1\"/>\n        <text x=\"80\" y=\"88\" font-size=\"6\" fill=\"#f59e0b\">exit</text>\n        <rect x=\"20\" y=\"90\" width=\"100\" height=\"20\" rx=\"3\" stroke=\"#f59e0b\" stroke-width=\"1\" fill=\"none\"/>\n        <text x=\"70\" y=\"104\" text-anchor=\"middle\" font-size=\"8\" fill=\"#f59e0b\">Terminated</text>\n      </g>"
  else if theme.visualType == "class" then
    "\n      <!-- OOP class diagram -->\n      <g opacity=\"0.15\" transform=\"translate(490, 140)\">\n        <rect x=\"10\" y=\"0\" width=\"130\" height=\"22\" rx=\"4 4 0 0\" stroke=\"" ++ a ++ "\" stroke-width=\"1.5\" fill=\"" ++ a ++ "\" fill-opacity=\"0.2\"/>\n        <text x=\"75\" y=\"15\" text-anchor=\"middle\" font-size=\"9\" fill=\"" ++ a ++ "\" font-weight=\"600\">Animal</text>\n        <rect x=\"10\" y=\"22\" width=\"130\" height=\"44\" rx=\"0 0 0 0\" stroke=\"" ++ a ++ "\" stroke-width=\"1\" fill=\"none\"/>\n        <text x=\"18\" y=\"38\" font-size=\"8\" fill=\"rgba(255,255,255,0.5)\">- name: string</text>\n        <line x1=\"10\" y1=\"44\" x2=\"140\" y2=\"44\" stroke=\"" ++ a ++ "\" stroke-width=\"0.5\" opacity=\"0.3\"/>\n        <text x=\"18\" y=\"58\" font-size=\"8\" fill=\"rgba(255,255,255,0.5)\">+ speak(): void</text>\n        <rect x=\"10\" y=\"66\" width=\"130\" height=\"2\" fill=\"none\"/>\n        <line x1=\"75\" y1=\"66\" x2=\"75\" y2=\"80\" stroke=\"" ++ b ++ "\" stroke-width=\"1\" stroke-dasharray=\"3 2\"/>\n        <text x=\"90\" y=\"76\" font-size=\"6\" fill=\"" ++ b ++ "\">extends</text>\n        <rect x=\"10\" y=\"80\" width=\"130\" height=\"22\" rx=\"4 4 0 0\" stroke=\"" ++ b ++ "\" stroke-width=\"1\" fill=\"" ++ b ++ "\" fill-opacity=\"0.1\"/>\n        <text x=\"75\" y=\"95\" text-anchor=\"middle\" font-size=\"9\" fill=\"" ++ b ++ "\">Dog</text>\n        <rect x=\"10\" y=\"102\" width=\"130\" height=\"22\" rx=\"0 0 4 4\" stroke=\"" ++ b ++ "\" stroke-width=\"1\" fill=\"none\"/>\n        <text x=\"18\" y=\"117\" font-size=\"8\" fill=\"rgba(255,255,255,0.4)\">+ speak(): \"Woof\"</text>\n      </g>"
  else
    "\n      <!-- Generic CS visual -->\n      <g opacity=\"0.12\" transform=\"translate(510, 155)\">\n        <circle cx=\"50\" cy=\"30\" r=\"20\" stroke=\"" ++ a ++ "\" stroke-width=\"1.5\" fill=\"none\"/>\n        <text x=\"50\" y=\"35\" text-anchor=\"middle\" font-size=\"16\">" ++ theme.icon ++ "</text>\n        <circle cx=\"0\" cy=\"90\" r=\"16\" stroke=\"" ++ b ++ "\" stroke-width=\"1\" fill=\"none\"/>\n        <circle cx=\"100\" cy=\"90\" r=\"16\" stroke=\"" ++ b ++ "\" stroke-width=\"1\" fill=\"none\"/>\n        <line x1=\"38\" y1=\"46\" x2=\"10\" y2=\"76\" stroke=\"" ++ a ++ "\" stroke-width=\"1\" stroke-dasharray=\"3 2\"/>\n        <line x1=\"62\" y1=\"46\" x2=\"90\" y2=\"76\" stroke=\"" ++ a ++ "\" stroke-width=\"1\" stroke-dasharray=\"3 2\"/>\n        <line x1=\"16\" y1=\"90\" x2=\"84\" y2=\"90\" stroke=\"" ++ b ++ "\" stroke-width=\"0.8\" stroke-dasharray=\"3 2\"/>\n      </g>"

/-! ## Template renderer: concept cards -/

/-- The per-card text slot of a concept card: `concept.substring(0, 18)`
applied to the (already escaped) concept string. -/
def conceptCardText (concept : String) : String :=
  jsSubstring0 concept 18

/-- `generateConceptCards(concepts, theme)`: up to four fixed-size cards in a
row, cycling through a 4-color palette by index. -/
def generateConceptCards (concepts : List String) (theme : Theme) : String :=
  String.intercalate "\n" (concepts.enum.map (fun p =>
    let i := p.1
    let concept := p.2
    let x := 36 + i * (145 + 8)
    let y := 152
    let chipColors := [theme.accent, theme.accentAlt, "#10b981", "#f59e0b"]
    let color := chipColors.getD (i % chipColors.length) theme.accent
    "\n    <g filter=\"url(#softShadow)\">\n      <rect x=\"" ++ toString x
      ++ "\" y=\"" ++ toString y
      ++ "\" width=\"145\" height=\"48\" rx=\"8\" fill=\"url(#glassCard)\" stroke=\""
      ++ color ++ "\" stroke-width=\"0.8\" stroke-opacity=\"0.4\"/>\n    </g>\n    <circle cx=\""
      ++ toString (x + 18) ++ "\" cy=\"" ++ toString (y + 24) ++ "\" r=\"6\" fill=\""
      ++ color ++ "\" opacity=\"0.25\"/>\n    <text x=\"" ++ toString (x + 18)
      ++ "\" y=\"" ++ toString (y + 27)
      ++ "\" text-anchor=\"middle\" font-size=\"8\" fill=\"" ++ color
      ++ "\">✦</text>\n    <text x=\"" ++ toString (x + 32) ++ "\" y=\"" ++ toString (y + 21)
      ++ "\" font-family=\"\x27Segoe UI\x27,Inter,system-ui,sans-serif\" font-size=\"10\" fill=\"white\" font-weight=\"600\">\n      "
      ++ conceptCardText concept
      ++ "\n    </text>\n    <text x=\"" ++ toString (x + 32) ++ "\" y=\"" ++ toString (y + 36)
      ++ "\" font-family=\"\x27Segoe UI\x27,Inter,system-ui,sans-serif\" font-size=\"8\" fill=\"rgba(255,255,255,0.4)\">\n      Concept "
      ++ toString (i + 1) ++ "\n    </text>"))

/-! ## Template renderer: code block -/

/-- JS `.replace(/\x7b/g, "\x7b\n").replace(/\x7d/g, "\n\x7d\n")` — the two
brace expansions of the code auto-wrap (independent character maps, so the
sequential replaces equal one pass). -/
def expandBraces (l : List Char) : List Char :=
  (l.map (fun c =>
    if c == lbrace then [lbrace, '\n']
    else if c == rbrace then ['\n', rbrace, '\n']
    else [c])).flatten

/-- JS `.replace(/;\s*/g, ";\n")`: each semicolon and the whitespace run after
it become a semicolon plus newline.  The Boolean state is true while skipping
the whitespace run that follows a semicolon. -/
def replaceSemiWsAux : Bool → List Char → List Char
  | _, [] => []
  | afterSemi, c :: rest =>
    if afterSemi && isJsWs c then replaceSemiWsAux true rest
    else if c == ';' then ';' :: '\n' :: replaceSemiWsAux true rest
    else c :: replaceSemiWsAux false rest

def replaceSemiWs (l : List Char) : List Char :=
  replaceSemiWsAux false l

/-- JS `String.prototype.split` with a single-character separator. -/
def splitOnCharAux (sep : Char) : List Char → List Char → List (List Char)
  | [], acc => [acc.reverse]
  | c :: rest, acc =>
    if c == sep then acc.reverse :: splitOnCharAux sep rest []
    else splitOnCharAux sep rest (c :: acc)

def splitOnChar (sep : Char) (s : String) : List String :=
  (splitOnCharAux sep s.toList []).map String.mk

/-- JS `String.prototype.split` with a two-character separator (used for the
literal backslash-n delimiter). -/
def splitOnPairAux (s1 s2 : Char) : List Char → List Char → List (List Char)
  | [], acc => [acc.reverse]
  | [c], acc => [(c :: acc).reverse]
  | c1 :: c2 :: rest, acc =>
    if c1 == s1 && c2 == s2 then acc.reverse :: splitOnPairAux s1 s2 rest []
    else splitOnPairAux s1 s2 (c2 :: rest) (c1 :: acc)

def splitOnPair (s1 s2 : Char) (s : String) : List String :=
  (splitOnPairAux s1 s2 s.toList []).map String.mk

/-- The indentation-tracking join of the brace/semicolon auto-wrap:
`indent = max(0, indent - 1)` before a closing-brace line, two spaces of
indent per level, `indent + 1` after a line ending in an opening brace. -/
def indentParts (parts : List String) : List String :=
  (parts.foldl
    (fun (acc : List String × Nat) part =>
      let trimmed := jsTrim part
      let ind1 := if trimmed.toList.head? == some rbrace then acc.2 - 1 else acc.2
      let line := String.join (List.replicate ind1 "  ") ++ trimmed
      let ind2 := if trimmed.toList.getLast? == some lbrace then ind1 + 1 else ind1
      (acc.1 ++ [line], ind2))
    ([], 0)).1

/-- One step of the greedy ~50-character word wrap of the code auto-wrap
fallback. -/
def wordWrapStep (acc : List String × String) (word : String) :
    List String × String :=
  let currentLine := acc.2
  if (currentLine ++ " " ++ word).length > 50 && currentLine.length > 0 then
    (acc.1 ++ [currentLine], "  " ++ word)
  else
    (acc.1, if currentLine == "" then word else currentLine ++ " " ++ word)

def wordWrap (words : List String) : List String :=
  let r := words.foldl wordWrapStep ([], "")
  if r.2 == "" then r.1 else r.1 ++ [r.2]

/-- The line-splitting logic of `generateCodeBlock`: split on the literal
backslash-n delimiter and drop blank lines; if at most one line remains and
the input exceeds 50 characters, re-split on brace/semicolon boundaries with
indent tracking, or fall back to word wrapping; keep at most 10 lines. -/
def computeCodeLines (codeLine : String) : List String :=
  let codeLines0 := (splitOnPair '\\' 'n' codeLine).filter
    (fun l => (jsTrim l).length > 0)
  let codeLines :=
    if codeLines0.length ≤ 1 && codeLine.length > 50 then
      let singleLine := jsOrStr codeLines0.head? codeLine
      let parts := (splitOnChar '\n'
          (String.mk (replaceSemiWs (expandBraces singleLine.toList)))).filter
        (fun p => (jsTrim p).length > 0)
      if parts.length > 1 then indentParts parts
      else wordWrap (splitOnChar ' ' singleLine)
    else codeLines0
  codeLines.take 10

/-- `generateCodeBlock(codeLine, theme)`: the numbered-line terminal panel,
its height a base offset plus 18 per line. -/
def generateCodeBlock (codeLine : String) (theme : Theme) : String :=
  let codeLines := computeCodeLines codeLine
  "\n    <!-- Code snippet block -->\n    <text x=\"40\" y=\"225\" font-family=\"\x27Segoe UI\x27,Inter,system-ui,sans-serif\" font-size=\"11\" fill=\"rgba(255,255,255,0.45)\" font-weight=\"600\" letter-spacing=\"1.5\">\n      CODE SNIPPET\n    </text>\n    <g filter=\"url(#softShadow)\">\n      <rect x=\"36\" y=\"234\" width=\"628\" height=\""
    ++ toString (24 + codeLines.length * 18)
    ++ "\" rx=\"8\" fill=\"rgba(0,0,0,0.4)\" stroke=\"" ++ theme.accent
    ++ "\" stroke-width=\"0.6\" stroke-opacity=\"0.3\"/>\n    </g>\n    <!-- Terminal dots -->\n    <circle cx=\"50\" cy=\"246\" r=\"3.5\" fill=\"#ff5f57\"/>\n    <circle cx=\"62\" cy=\"246\" r=\"3.5\" fill=\"#febc2e\"/>\n    <circle cx=\"74\" cy=\"246\" r=\"3.5\" fill=\"#28c840\"/>\n    <text x=\"100\" y=\"249\" font-family=\"\x27Cascadia Code\x27,monospace\" font-size=\"8\" fill=\"rgba(255,255,255,0.3)\">code.js</text>\n    <line x1=\"36\" y1=\"256\" x2=\"664\" y2=\"256\" stroke=\"rgba(255,255,255,0.08)\" stroke-width=\"0.5\"/>\n    <!-- Line numbers -->\n    "
    ++ String.intercalate "\n    " (codeLines.enum.map (fun p =>
        "<text x=\"46\" y=\"" ++ toString (274 + p.1 * 18)
          ++ "\" font-family=\"\x27Cascadia Code\x27,monospace\" font-size=\"9\" fill=\"rgba(255,255,255,0.2)\">"
          ++ toString (p.1 + 1) ++ "</text>"))
    ++ "\n    <!-- Code content -->\n    "
    ++ String.intercalate "\n    " (codeLines.enum.map (fun p =>
        "<text x=\"64\" y=\"" ++ toString (274 + p.1 * 18)
          ++ "\" font-family=\"\x27Cascadia Code\x27,\x27Fira Code\x27,monospace\" font-size=\"11\" fill=\""
          ++ theme.accentAlt ++ "\">" ++ p.2 ++ "</text>"))

/-- `generateTipSection(tip)`: the single fixed-size callout box. -/
def generateTipSection (tip : String) : String :=
  "\n    <!-- Interview Tip -->\n    <g filter=\"url(#softShadow)\">\n      <rect x=\"36\" y=\"460\" width=\"628\" height=\"48\" rx=\"10\" fill=\"rgba(251,191,36,0.06)\" stroke=\"rgba(251,191,36,0.2)\" stroke-width=\"1\"/>\n    </g>\n    <text x=\"56\" y=\"480\" font-family=\"\x27Segoe UI\x27,Inter,system-ui,sans-serif\" font-size=\"11\" fill=\"#fbbf24\" font-weight=\"700\">\n      💡 INTERVIEW TIP\n    </text>\n    <text x=\"56\" y=\"498\" font-family=\"\x27Segoe UI\x27,Inter,system-ui,sans-serif\" font-size=\"11\" fill=\"rgba(255,255,255,0.65)\">\n      "
    ++ tip ++ "\n    </text>"

/-! ## Template renderer: main document -/

/-- `generateTopicSVG(meta)` from `src/server/agents/mediaEngine.js`: theme
selection by category with the `general` default, escaping of every free-text
value, and the fixed-canvas self-contained SVG document. -/
def generateTopicSVG (meta : ImageMetadata) : String :=
  let theme := (meta.category.bind CATEGORY_THEMES).getD generalTheme
  let safeTitle := escapeXml (jsOrStr meta.title "Topic")
  let safeSubtitle := escapeXml (jsOrStr meta.subtitle "")
  let concepts := (meta.keyConcepts.getD []).map escapeXml
  let codeLine := escapeXml (jsSubstring0 (jsOrStr meta.codeSnippet "") 300)
  let tip := escapeXml (jsSubstring0 (jsOrStr meta.interviewTip "") 80)
  let visualElements := generateVisualElements theme
  let conceptCards := generateConceptCards concepts theme
  let codeBlock := if codeLine == "" then "" else generateCodeBlock codeLine theme
  let tipSection := if tip == "" then "" else generateTipSection tip
  let categoryLabel := escapeXml ((jsOrStr meta.category "general").toList.map Char.toUpper |> String.mk)
  "<svg xmlns=\"http://www.w3.org/2000/svg\" width=\"700\" height=\"560\" viewBox=\"0 0 700 560\">\n  <defs>\n    <linearGradient id=\"bgMain\" x1=\"0%\" y1=\"0%\" x2=\"100%\" y2=\"100%\">\n      <stop offset=\"0%\" style=\"stop-color:"
    ++ theme.gradient0 ++ "\"/>\n      <stop offset=\"50%\" style=\"stop-color:"
    ++ theme.gradient1 ++ "\"/>\n      <stop offset=\"100%\" style=\"stop-color:"
    ++ theme.gradient2
    ++ "\"/>\n    </linearGradient>\n    <linearGradient id=\"accentGrad\" x1=\"0%\" y1=\"0%\" x2=\"100%\" y2=\"100%\">\n      <stop offset=\"0%\" style=\"stop-color:"
    ++ theme.accent ++ "\"/>\n      <stop offset=\"100%\" style=\"stop-color:"
    ++ theme.accentAlt
    ++ "\"/>\n    </linearGradient>\n    <linearGradient id=\"glassCard\" x1=\"0%\" y1=\"0%\" x2=\"0%\" y2=\"100%\">\n      <stop offset=\"0%\" style=\"stop-color:rgba(255,255,255,0.12)\"/>\n      <stop offset=\"100%\" style=\"stop-color:rgba(255,255,255,0.04)\"/>\n    </linearGradient>\n    <filter id=\"glow\">\n      <feGaussianBlur stdDeviation=\"8\" result=\"coloredBlur\"/>\n      <feMerge><feMergeNode in=\"coloredBlur\"/><feMergeNode in=\"SourceGraphic\"/></feMerge>\n    </filter>\n    <filter id=\"softShadow\">\n      <feDropShadow dx=\"0\" dy=\"4\" stdDeviation=\"6\" flood-color=\"rgba(0,0,0,0.3)\"/>\n    </filter>\n    <clipPath id=\"roundClip\"><rect width=\"700\" height=\"560\" rx=\"20\"/></clipPath>\n  </defs>\n\n  <!-- Background -->\n  <g clip-path=\"url(#roundClip)\">\n    <rect width=\"700\" height=\"560\" fill=\"url(#bgMain)\"/>\n\n    <!-- Ambient glow orbs -->\n    <circle cx=\"100\" cy=\"80\" r=\"120\" fill=\""
    ++ theme.accent ++ "\" opacity=\"0.06\"/>\n    <circle cx=\"600\" cy=\"400\" r=\"140\" fill=\""
    ++ theme.accentAlt ++ "\" opacity=\"0.05\"/>\n    <circle cx=\"350\" cy=\"240\" r=\"200\" fill=\""
    ++ theme.accent ++ "\" opacity=\"0.03\"/>\n\n    <!-- Dot grid pattern -->\n    "
    ++ generateDotGrid
    ++ "\n\n    <!-- Category-specific visual elements -->\n    "
    ++ visualElements
    ++ "\n\n    <!-- Header section -->\n    <g filter=\"url(#softShadow)\">\n      <rect x=\"24\" y=\"20\" width=\"652\" height=\"90\" rx=\"14\" fill=\"url(#glassCard)\" stroke=\"rgba(255,255,255,0.1)\" stroke-width=\"1\"/>\n    </g>\n    <text x=\"56\" y=\"52\" font-family=\"\x27Segoe UI\x27,Inter,system-ui,sans-serif\" font-size=\"14\" fill=\""
    ++ theme.accent ++ "\" font-weight=\"600\" letter-spacing=\"2\">\n      "
    ++ theme.icon ++ " " ++ categoryLabel
    ++ " • PLACEMENT PREP\n    </text>\n    <text x=\"56\" y=\"82\" font-family=\"\x27Segoe UI\x27,Inter,system-ui,sans-serif\" font-size=\"26\" font-weight=\"700\" fill=\"white\">\n      "
    ++ safeTitle
    ++ "\n    </text>\n    <text x=\"56\" y=\"100\" font-family=\"\x27Segoe UI\x27,Inter,system-ui,sans-serif\" font-size=\"13\" fill=\"rgba(255,255,255,0.6)\">\n      "
    ++ safeSubtitle
    ++ "\n    </text>\n\n    <!-- Accent stripe -->\n    <rect x=\"24\" y=\"110\" width=\"652\" height=\"3\" rx=\"1.5\" fill=\"url(#accentGrad)\" opacity=\"0.6\"/>\n\n    <!-- Key Concepts Section -->\n    <text x=\"40\" y=\"140\" font-family=\"\x27Segoe UI\x27,Inter,system-ui,sans-serif\" font-size=\"11\" fill=\"rgba(255,255,255,0.45)\" font-weight=\"600\" letter-spacing=\"1.5\">\n      KEY CONCEPTS\n    </text>\n    "
    ++ conceptCards
    ++ "\n\n    <!-- Code Block -->\n    "
    ++ codeBlock
    ++ "\n\n    <!-- Interview Tip -->\n    "
    ++ tipSection
    ++ "\n\n    <!-- Footer -->\n    <rect x=\"24\" y=\"520\" width=\"652\" height=\"28\" rx=\"8\" fill=\"rgba(255,255,255,0.04)\"/>\n    <text x=\"350\" y=\"539\" text-anchor=\"middle\" font-family=\"\x27Segoe UI\x27,Inter,system-ui,sans-serif\" font-size=\"10\" fill=\"rgba(255,255,255,0.3)\" letter-spacing=\"1\">\n      CANTILEVER AI TUTOR • POWERED BY LANGGRAPH + GROQ + LLAMA 3.3\n    </text>\n  </g>\n</svg>"

/-! ## Base64 encoding (the `Buffer.from(svg).toString("base64")` step) -/

def base64Alphabet : String :=
  "ABCDEFGHIJKLMNOPQRSTUVWXYZabcdefghijklmnopqrstuvwxyz0123456789+/"

def b64Char (n : Nat) : Char :=
  base64Alphabet.toList.getD n 'A'

/-- Standard base64 of a byte list, `=`-padded. -/
def base64EncodeBytes : List Nat → String
  | [] => ""
  | [a] =>
    String.mk [b64Char (a / 4), b64Char (a % 4 * 16)] ++ "=="
  | [a, b] =>
    String.mk [b64Char (a / 4), b64Char (a % 4 * 16 + b / 16), b64Char (b % 16 * 4)] ++ "="
  | a :: b :: c :: rest =>
    String.mk [b64Char (a / 4), b64Char (a % 4 * 16 + b / 16),
      b64Char (b % 16 * 4 + c / 64), b64Char (c % 64)]
      ++ base64EncodeBytes rest

/-- UTF-8 bytes of one scalar value. -/
def utf8Bytes (c : Char) : List Nat :=
  let n := c.toNat
  if n < 128 then [n]
  else if n < 2048 then [192 + n / 64, 128 + n % 64]
  else if n < 65536 then [224 + n / 4096, 128 + n / 64 % 64, 128 + n % 64]
  else [240 + n / 262144, 128 + n / 4096 % 64, 128 + n / 64 % 64, 128 + n % 64]

def base64Encode (s : String) : String :=
  base64EncodeBytes ((s.toList.map utf8Bytes).flatten)

/-! ## Media stage -/

/-- Side effects of the media stage, reified: the local-dev branch writes the
rendered markup through the filesystem. -/
inductive Effect where
  | fsWrite (path : String) (content : String)
deriving Repr, DecidableEq

/-- Ambient environment of the media stage: the `process.env.VERCEL` switch
and `Date.now()` used for the local file name. -/
structure MediaEnv where
  vercel : Bool
  now : Nat
deriving Repr, DecidableEq

/-- Outcome of the visual sub-task's LLM call and JSON extraction: the call
threw; or it returned text whose first balanced-brace span JSON-parsed to a
metadata object; or it returned text on which extraction/parsing threw. -/
inductive VisualCall where
  | callFailed (msg : String)
  | parsed (meta : ImageMetadata)
  | parseFailed
deriving Repr, DecidableEq

/-- The deployment branch of the visual sub-task: a base64 data URI on
Vercel, a write into the public folder plus a `/public/` URL in local dev. -/
def mkImageUrl (env : MediaEnv) (svgContent : String) : String × List Effect :=
  if env.vercel then
    ("data:image/svg+xml;base64," ++ base64Encode svgContent, [])
  else
    let imageFileName := "topic-" ++ toString env.now ++ ".svg"
    ("/public/" ++ imageFileName,
      [Effect.fsWrite ("public/" ++ imageFileName) svgContent])

/-- `runMediaEngine(state)` from `src/server/agents/mediaEngine.js`.

Skips when the state is rejected or markdown is falsy.  The visual sub-task
(its own try/catch): a throwing LLM call leaves `imageUrl` null and flips the
failure flag; a parse failure substitutes `defaultImageMetadata` and is not a
failure; the rendered markup becomes a data URI or a written file.  The
narration sub-task (its own try/catch): the trimmed response (or null when
falsy) becomes `audioText`; a throwing call flips the failure flag.  The
returned state carries both results and the OR of the two failure flags. -/
def runMediaEngine (env : MediaEnv) (visual : VisualCall)
    (narration : Except String (Option String)) (state : PipelineState) :
    PipelineState × List Effect :=
  if state.rejected || jsFalsyOptStr state.markdown then (state, [])
  else
    let visualOutcome : Option String × Bool × List Effect :=
      match visual with
      | VisualCall.callFailed _ => (none, true, [])
      | VisualCall.parsed meta =>
        let r := mkImageUrl env (generateTopicSVG meta)
        (some r.1, false, r.2)
      | VisualCall.parseFailed =>
        let r := mkImageUrl env (generateTopicSVG (defaultImageMetadata state.topic))
        (some r.1, false, r.2)
    let audioOutcome : Option String × Bool :=
      match narration with
      | Except.error _ => (none, true)
      | Except.ok none => (none, false)
      | Except.ok (some raw) =>
        (if jsTrim raw == "" then none else some (jsTrim raw), false)
    ({ state with
        imageUrl := visualOutcome.1
        audioText := audioOutcome.1
        mediaFailed := visualOutcome.2.1 || audioOutcome.2 }, visualOutcome.2.2)

/-! ## Orchestrator (graph wiring) -/

/-- `routeAfterSupervisor(state)`: the conditional edge after the supervisor
node. -/
def routeAfterSupervisor (state : PipelineState) : String :=
  if state.rejected then "end" else "researcher"

/-- One full invocation of the compiled graph: supervisor, the conditional
route, then researcher and media engine in sequence, with the caller's
`createInitialState`.  The stage-call outcomes are the pipeline's external
inputs. -/
def runPipeline (env : MediaEnv) (classifierResp : Except String ClassifierResponse)
    (researcherResp : Except String String) (visual : VisualCall)
    (narration : Except String (Option String))
    (query : String) (duration : Option Int) : PipelineState × List Effect :=
  let s0 := createInitialState query duration
  let s1 := runSupervisor classifierResp s0
  if routeAfterSupervisor s1 == "end" then (s1, [])
  else
    let s2 := runResearcher researcherResp s1
    runMediaEngine env visual narration s2

/-! ## Channel views of the media stage -/

/-- Whether the visual sub-task's LLM call threw (the only visual failure). -/
def visualFails : VisualCall → Bool
  | VisualCall.callFailed _ => true
  | VisualCall.parsed _ => false
  | VisualCall.parseFailed => false

/-- Whether the narration sub-task's LLM call threw. -/
def narrationFails : Except String (Option String) → Bool
  | Except.error _ => true
  | Except.ok _ => false

/-- The narration channel's result, as a function of its own input only. -/
def narrationText : Except String (Option String) → Option String
  | Except.error _ => none
  | Except.ok none => none
  | Except.ok (some raw) => if jsTrim raw == "" then none else some (jsTrim raw)

/-- The markup rendered by the visual channel (empty when the call threw). -/
def visualSvg (v : VisualCall) (topic : Option String) : String :=
  match v with
  | VisualCall.callFailed _ => ""
  | VisualCall.parsed meta => generateTopicSVG meta
  | VisualCall.parseFailed => generateTopicSVG (defaultImageMetadata topic)

/-- The visual channel's `imageUrl` result, as a function of its own input
(and the deployment environment and topic) only. -/
def visualUrl (env : MediaEnv) (v : VisualCall) (topic : Option String) :
    Option String :=
  match v with
  | VisualCall.callFailed _ => none
  | VisualCall.parsed meta => some (mkImageUrl env (generateTopicSVG meta)).1
  | VisualCall.parseFailed =>
    some (mkImageUrl env (generateTopicSVG (defaultImageMetadata topic))).1

/-! ## Helper lemmas -/

/-- The media stage never touches `rejected`, `markdown` or `classification`. -/
theorem runMediaEngine_preserves (env : MediaEnv) (v : VisualCall)
    (n : Except String (Option String)) (s : PipelineState) :
    (runMediaEngine env v n s).1.rejected = s.rejected ∧
    (runMediaEngine env v n s).1.markdown = s.markdown ∧
    (runMediaEngine env v n s).1.classification = s.classification := by
  unfold runMediaEngine
  split
  · exact ⟨rfl, rfl, rfl⟩
  · exact ⟨rfl, rfl, rfl⟩

/-- The content stage never touches `rejected` or `classification`. -/
theorem runResearcher_preserves (rr : Except String String) (s : PipelineState) :
    (runResearcher rr s).rejected = s.rejected ∧
    (runResearcher rr s).classification = s.classification := by
  unfold runResearcher
  split
  · exact ⟨rfl, rfl⟩
  · cases rr <;> exact ⟨rfl, rfl⟩

/-- On a non-rejected state the content stage always sets `markdown`. -/
theorem runResearcher_sets_markdown (rr : Except String String)
    (s : PipelineState) (h : s.rejected = false) :
    ∃ m, (runResearcher rr s).markdown = some m := by
  unfold runResearcher
  rw [h]
  cases rr <;> simp


/-! ## Claim theorems -/

/-- C1 (counterexample): an accepted query whose parsed response carries the
present, non-empty `detectedTopic` value `Arrays` still gets `topic` set to
the raw query text by the graph classifier `runSupervisor`, contradicting the
claim that `detectedTopic` is used whenever present and non-empty. -/
theorem c1_detectedTopic_counterexample :
    ((runSupervisor (Except.ok ⟨"placement_topic", "ok", some "Arrays"⟩)
        (createInitialState "explain trees" (some 3))).topic
      = some "explain trees") ∧
    (some "explain trees" ≠ some ("Arrays" : String)) ∧
    ((some "Arrays" : Option String) ≠ none) ∧ ("Arrays" ≠ "") := by
  decide

/-- C1 (amended): on acceptance the graph classifier
(`src/server/agents/supervisor.js`) always sets `topic` to the raw query
text, ignoring `detectedTopic`; only the serverless classifier
(`src/api/chat.js`) sets `topic` to `detectedTopic` when present and
non-empty, falling back to the raw query otherwise. -/
theorem c1_topic_assignment (s : PipelineState) (q : String)
    (r : ClassifierResponse) :
    ((runSupervisor (Except.ok r) s).topic
      = if r.classification = "placement_topic" then some s.query else s.topic) ∧
    ((apiRunSupervisor q r).topic
      = if r.classification = "placement_topic"
        then some (match r.detectedTopic with
          | none => q
          | some t => if t = "" then q else t)
        else none) := by
  constructor
  · unfold runSupervisor
    by_cases h : r.classification = "placement_topic" <;> simp [h]
  · unfold apiRunSupervisor jsOrStr
    by_cases h : r.classification = "placement_topic" <;> simp [h]

/-- C2: when the classifier's LLM call throws or its response fails to parse
(the `Except.error` input), `runSupervisor` returns normally with
`rejected = false`, `topic` equal to the original query and
`classification = "placement_topic"`. -/
theorem c2_classifier_fail_open (state : PipelineState) (msg : String) :
    runSupervisor (Except.error msg) state =
      { state with
        rejected := false
        topic := some state.query
        classification := some "placement_topic" } := rfl

/-- C4 (counterexample): the numeric input 0 lies below 2, so the claim says
it is clamped to 2; `createInitialState` instead stores the default 3,
because JS `duration || 3` treats the numeric value 0 as falsy. -/
theorem c4_zero_counterexample :
    ((createInitialState "q" (some 0)).duration ≠ 2) ∧
    ((createInitialState "q" (some 0)).duration = 3) ∧ ((0 : Int) < 2) := by
  decide

/-- C4 (amended): the stored duration always lies in `[2,5]`; absent or
non-numeric inputs and the numeric input 0 (falsy in JS) default to 3;
non-zero numeric inputs below 2 are clamped to 2 and inputs above 5 are
clamped to 5. -/
theorem c4_duration_clamping (q : String) (d : Option Int) :
    2 ≤ (createInitialState q d).duration ∧
    (createInitialState q d).duration ≤ 5 ∧
    (createInitialState q d).duration =
      (match d with
       | none => 3
       | some v => if v = 0 then 3 else if v < 2 then 2 else if 5 < v then 5 else v) := by
  rcases d with _ | v
  · refine ⟨by norm_num [createInitialState, jsOrInt], by norm_num [createInitialState, jsOrInt], ?_⟩
    norm_num [createInitialState, jsOrInt]
  · simp only [createInitialState, jsOrInt]
    by_cases h0 : v = 0
    · simp [h0]
    · simp only [h0, if_false]
      refine ⟨?_, ?_, ?_⟩ <;> simp only [min_def, max_def] <;> split_ifs <;> omega

/-- The classifier never touches `markdown`. -/
theorem runSupervisor_preserves_markdown (cr : Except String ClassifierResponse)
    (s : PipelineState) :
    (runSupervisor cr s).markdown = s.markdown := by
  rcases cr with msg | r
  · rfl
  · by_cases h : r.classification = "placement_topic"
    · simp [runSupervisor, h]
    · simp [runSupervisor, h]

/-- C3: after any completed pipeline run exactly one of `rejected = true` and
`markdown is set` holds — rejected runs end with `markdown` absent, accepted
runs (including the fail-open and content-error paths) end with `markdown`
set. -/
theorem c3_rejected_xor_markdown (env : MediaEnv)
    (cr : Except String ClassifierResponse) (rr : Except String String)
    (v : VisualCall) (n : Except String (Option String))
    (q : String) (d : Option Int) :
    ((runPipeline env cr rr v n q d).1.rejected = true ∧
      (runPipeline env cr rr v n q d).1.markdown = none) ∨
    ((runPipeline env cr rr v n q d).1.rejected = false ∧
      (runPipeline env cr rr v n q d).1.markdown ≠ none) := by
  by_cases hrej : (runSupervisor cr (createInitialState q d)).rejected
  · left
    have hmark : (runSupervisor cr (createInitialState q d)).markdown = none :=
      runSupervisor_preserves_markdown cr (createInitialState q d)
    simp [runPipeline, routeAfterSupervisor, hrej, hmark]
  · right
    have h1 : (runSupervisor cr (createInitialState q d)).rejected = false := by
      simpa using hrej
    obtain ⟨m, hm⟩ := runResearcher_sets_markdown rr _ h1
    have hpres := runMediaEngine_preserves env v n
      (runResearcher rr (runSupervisor cr (createInitialState q d)))
    have hpres2 := runResearcher_preserves rr (runSupervisor cr (createInitialState q d))
    have hroute : (routeAfterSupervisor (runSupervisor cr (createInitialState q d)) == "end") = false := by
      unfold routeAfterSupervisor
      rw [h1]
      rfl
    simp only [runPipeline, hroute, Bool.false_eq_true, if_false]
    constructor
    · rw [hpres.1, hpres2.1, h1]
    · rw [hpres.2.1, hm]
      simp

/-- A concrete accepted state with markdown present, used by witnesses. -/
def mediaProbeState : PipelineState :=
  { query := "q", duration := 3, topic := some "Trees", rejected := false
    rejectionReason := none, classification := some "placement_topic"
    markdown := some "# md", imageUrl := none, audioText := none
    mediaFailed := false }

/-- C5: the media stage's failure flag is the disjunction of the two
sub-task failures, and each sub-task's result is a function of its own
call outcome only — forcing one to fail leaves the other's result exactly
what its own input dictates. -/
theorem c5_media_independent_failures (env : MediaEnv) (v : VisualCall)
    (n : Except String (Option String)) (s : PipelineState)
    (h1 : s.rejected = false) (h2 : jsFalsyOptStr s.markdown = false) :
    ((runMediaEngine env v n s).1.mediaFailed
      = (visualFails v || narrationFails n)) ∧
    ((runMediaEngine env v n s).1.audioText = narrationText n) ∧
    ((runMediaEngine env v n s).1.imageUrl = visualUrl env v s.topic) := by
  unfold runMediaEngine
  rw [h1, h2]
  simp only [Bool.or_self, if_false]
  rcases v with msg | meta | _ <;> rcases n with msg2 | c <;>
    first
      | (rcases c with _ | raw <;> exact ⟨rfl, rfl, rfl⟩)
      | exact ⟨rfl, rfl, rfl⟩

/-- C5 witness: forcing the visual call to fail while narration succeeds, and
vice versa, on a concrete accepted state with markdown present. -/
theorem c5_media_independent_failures_witness :
    (((runMediaEngine ⟨true, 0⟩ (VisualCall.callFailed "boom")
          (Except.ok (some "a script")) mediaProbeState).1.mediaFailed
        = (visualFails (VisualCall.callFailed "boom")
            || narrationFails (Except.ok (some "a script")))) ∧
      ((runMediaEngine ⟨true, 0⟩ (VisualCall.callFailed "boom")
          (Except.ok (some "a script")) mediaProbeState).1.audioText
        = narrationText (Except.ok (some "a script"))) ∧
      ((runMediaEngine ⟨true, 0⟩ (VisualCall.callFailed "boom")
          (Except.ok (some "a script")) mediaProbeState).1.imageUrl
        = visualUrl ⟨true, 0⟩ (VisualCall.callFailed "boom") mediaProbeState.topic)) ∧
    (((runMediaEngine ⟨true, 0⟩ VisualCall.parseFailed
          (Except.error "down") mediaProbeState).1.mediaFailed
        = (visualFails VisualCall.parseFailed || narrationFails (Except.error "down"))) ∧
      ((runMediaEngine ⟨true, 0⟩ VisualCall.parseFailed
          (Except.error "down") mediaProbeState).1.audioText
        = narrationText (Except.error "down")) ∧
      ((runMediaEngine ⟨true, 0⟩ VisualCall.parseFailed
          (Except.error "down") mediaProbeState).1.imageUrl
        = visualUrl ⟨true, 0⟩ VisualCall.parseFailed mediaProbeState.topic)) :=
  ⟨c5_media_independent_failures ⟨true, 0⟩ (VisualCall.callFailed "boom")
      (Except.ok (some "a script")) mediaProbeState (by decide) (by decide),
    c5_media_independent_failures ⟨true, 0⟩ VisualCall.parseFailed
      (Except.error "down") mediaProbeState (by decide) (by decide)⟩

/-- C6: a visual-metadata parse failure substitutes the deterministic default
metadata (title = topic, generic subtitle, four placeholder concepts, category
general, empty snippet, generic tip), rendering proceeds with it, the failure
flag reflects only the narration channel; only a throwing visual LLM call
marks the failure flag for this sub-task. -/
theorem c6_parse_failure_defaults (env : MediaEnv)
    (n : Except String (Option String)) (s : PipelineState) (msg : String)
    (h1 : s.rejected = false) (h2 : jsFalsyOptStr s.markdown = false) :
    ((runMediaEngine env VisualCall.parseFailed n s).1.imageUrl
      = some (mkImageUrl env (generateTopicSVG (defaultImageMetadata s.topic))).1) ∧
    ((runMediaEngine env VisualCall.parseFailed n s).1.mediaFailed
      = narrationFails n) ∧
    (defaultImageMetadata s.topic =
      { title := s.topic
        subtitle := some "CSE Placement Preparation"
        keyConcepts := some ["Concept 1", "Concept 2", "Concept 3", "Concept 4"]
        category := some "general"
        codeSnippet := some ""
        interviewTip := some "Understand the fundamentals thoroughly." }) ∧
    ((runMediaEngine env (VisualCall.callFailed msg) n s).1.mediaFailed = true) := by
  unfold runMediaEngine
  rw [h1, h2]
  simp only [Bool.or_self, if_false]
  refine ⟨rfl, ?_, rfl, ?_⟩ <;>
    rcases n with m2 | c <;>
    first
      | (rcases c with _ | raw <;> rfl)
      | rfl

/-- C6 witness: a concrete accepted state with markdown present, a failing
parse, and a succeeding narration call. -/
theorem c6_parse_failure_defaults_witness :
    ((runMediaEngine ⟨true, 0⟩ VisualCall.parseFailed (Except.ok (some "s"))
        mediaProbeState).1.imageUrl
      = some (mkImageUrl ⟨true, 0⟩
          (generateTopicSVG (defaultImageMetadata mediaProbeState.topic))).1) ∧
    ((runMediaEngine ⟨true, 0⟩ VisualCall.parseFailed (Except.ok (some "s"))
        mediaProbeState).1.mediaFailed = narrationFails (Except.ok (some "s"))) ∧
    (defaultImageMetadata mediaProbeState.topic =
      { title := mediaProbeState.topic
        subtitle := some "CSE Placement Preparation"
        keyConcepts := some ["Concept 1", "Concept 2", "Concept 3", "Concept 4"]
        category := some "general"
        codeSnippet := some ""
        interviewTip := some "Understand the fundamentals thoroughly." }) ∧
    ((runMediaEngine ⟨true, 0⟩ (VisualCall.callFailed "crash")
        (Except.ok (some "s")) mediaProbeState).1.mediaFailed = true) :=
  c6_parse_failure_defaults ⟨true, 0⟩ (Except.ok (some "s")) mediaProbeState
    "crash" (by decide) (by decide)

set_option maxRecDepth 100000

/-- C7: the concept-card slot truncates to 18 characters AFTER escaping
(`concept.substring(0, 18)` on the escaped string), so a concept whose escape
entity straddles the boundary — here seventeen `A`s followed by `<` — embeds
a bare `&` in the rendered markup's text position.  The escaped value itself
is well formed; the truncated card text is not, and the malformed fragment
(not the intact entity) is what reaches the card's text element. -/
theorem c7_concept_truncation_unescapes :
    (conceptCardText (escapeXml "AAAAAAAAAAAAAAAAA<") = "AAAAAAAAAAAAAAAAA&") ∧
    (wellEscaped (conceptCardText (escapeXml "AAAAAAAAAAAAAAAAA<")) = false) ∧
    (wellEscaped (escapeXml "AAAAAAAAAAAAAAAAA<") = true) ∧
    (containsStr (generateConceptCards [escapeXml "AAAAAAAAAAAAAAAAA<"] generalTheme)
        "\n      AAAAAAAAAAAAAAAAA&\n    </text>" = true) ∧
    (containsStr (generateConceptCards [escapeXml "AAAAAAAAAAAAAAAAA<"] generalTheme)
        "AAAAAAAAAAAAAAAAA&lt;" = false) := by
  decide

/-- C8 (counterexample): a run with the VERCEL switch off and a succeeding
visual sub-task yields a `/public/` path (not a data URI) and performs one
filesystem write, contradicting the claim that the markup is never written
through a filesystem interface. -/
theorem c8_local_write_counterexample :
    ((runMediaEngine ⟨false, 0⟩ VisualCall.parseFailed (Except.ok (some "s"))
        mediaProbeState).1.imageUrl = some "/public/topic-0.svg") ∧
    ("data:".toList.isPrefixOf "/public/topic-0.svg".toList = false) ∧
    ((runMediaEngine ⟨false, 0⟩ VisualCall.parseFailed (Except.ok (some "s"))
        mediaProbeState).2.length = 1) := by
  refine ⟨rfl, by decide, rfl⟩

/-- C8 (amended): only when the VERCEL environment switch is set is the
rendered markup returned as a base64 data URI with no storage side effect;
with the switch off, the media stage writes the markup into the public folder
and returns a `/public/` path. -/
theorem c8_deployment_branches (env : MediaEnv) (v : VisualCall)
    (n : Except String (Option String)) (s : PipelineState)
    (h1 : s.rejected = false) (h2 : jsFalsyOptStr s.markdown = false)
    (h3 : visualFails v = false) :
    (env.vercel = true →
      ((runMediaEngine env v n s).1.imageUrl
        = some ("data:image/svg+xml;base64," ++ base64Encode (visualSvg v s.topic))) ∧
      (runMediaEngine env v n s).2 = []) ∧
    (env.vercel = false →
      ((runMediaEngine env v n s).1.imageUrl
        = some ("/public/" ++ ("topic-" ++ toString env.now ++ ".svg"))) ∧
      (runMediaEngine env v n s).2
        = [Effect.fsWrite ("public/" ++ ("topic-" ++ toString env.now ++ ".svg"))
            (visualSvg v s.topic)]) := by
  unfold runMediaEngine mkImageUrl
  rw [h1, h2]
  simp only [Bool.or_self, if_false]
  rcases v with msg | meta | _
  · exact absurd h3 (by simp [visualFails])
  · constructor
    · intro hv
      rw [hv]
      exact ⟨rfl, rfl⟩
    · intro hv
      rw [hv]
      exact ⟨rfl, rfl⟩
  · constructor
    · intro hv
      rw [hv]
      exact ⟨rfl, rfl⟩
    · intro hv
      rw [hv]
      exact ⟨rfl, rfl⟩

/-- C8 witness: the amended branches at a concrete Vercel environment. -/
theorem c8_deployment_branches_witness :
    ((true = true →
      ((runMediaEngine ⟨true, 7⟩ VisualCall.parseFailed (Except.ok (some "s"))
          mediaProbeState).1.imageUrl
        = some ("data:image/svg+xml;base64,"
            ++ base64Encode (visualSvg VisualCall.parseFailed mediaProbeState.topic))) ∧
      (runMediaEngine ⟨true, 7⟩ VisualCall.parseFailed (Except.ok (some "s"))
          mediaProbeState).2 = []) ∧
    (true = false →
      ((runMediaEngine ⟨true, 7⟩ VisualCall.parseFailed (Except.ok (some "s"))
          mediaProbeState).1.imageUrl
        = some ("/public/" ++ ("topic-" ++ toString (7 : Nat) ++ ".svg"))) ∧
      (runMediaEngine ⟨true, 7⟩ VisualCall.parseFailed (Except.ok (some "s"))
          mediaProbeState).2
        = [Effect.fsWrite ("public/" ++ ("topic-" ++ toString (7 : Nat) ++ ".svg"))
            (visualSvg VisualCall.parseFailed mediaProbeState.topic)])) :=
  c8_deployment_branches ⟨true, 7⟩ VisualCall.parseFailed (Except.ok (some "s"))
    mediaProbeState (by decide) (by decide) (by decide)

/-- A concrete rejected state, used by the C9 witness. -/
def rejectedProbeState : PipelineState :=
  { query := "pizza recipe", duration := 3, topic := none, rejected := true
    rejectionReason := some "off-topic", classification := some "irrelevant"
    markdown := none, imageUrl := none, audioText := none, mediaFailed := false }

/-- C9: a rejected state passes through the content stage and the media stage
completely unchanged (and the media stage performs no effect), so `markdown`,
`imageUrl` and `audioText` are never mutated after rejection. -/
theorem c9_rejected_stages_noop (rr : Except String String) (env : MediaEnv)
    (v : VisualCall) (n : Except String (Option String)) (s : PipelineState)
    (h : s.rejected = true) :
    runResearcher rr s = s ∧ runMediaEngine env v n s = (s, []) := by
  constructor
  · unfold runResearcher
    rw [h]
    rfl
  · unfold runMediaEngine
    rw [h]
    rfl

/-- C9 witness: the pass-through at a concrete rejected state. -/
theorem c9_rejected_stages_noop_witness :
    runResearcher (Except.ok "content") rejectedProbeState = rejectedProbeState ∧
    runMediaEngine ⟨true, 0⟩ VisualCall.parseFailed (Except.ok (some "s"))
        rejectedProbeState = (rejectedProbeState, []) :=
  c9_rejected_stages_noop (Except.ok "content") ⟨true, 0⟩ VisualCall.parseFailed
    (Except.ok (some "s")) rejectedProbeState (by decide)

/-- C10 (counterexample): a parsed response carrying the out-of-set
classification string `banana` completes the pipeline with
`classification = some "banana"`, outside the three-value set and not
absent. -/
theorem c10_out_of_set_counterexample :
    ((runPipeline ⟨true, 0⟩ (Except.ok ⟨"banana", "a reason", none⟩)
        (Except.ok "md") VisualCall.parseFailed (Except.ok (some "s"))
        "q" (some 3)).1.classification = some "banana") ∧
    ("banana" ≠ "placement_topic") ∧ ("banana" ≠ "irrelevant") ∧
    ("banana" ≠ "harmful") := by
  decide

/-- C10 (amended): after a completed pipeline run, `classification` is
`placement_topic` when the classifier's call or parse failed, and otherwise
exactly the parsed response's classification string, stored verbatim — it
lies in the three-value set only when the model's output does. -/
theorem c10_classification_verbatim (env : MediaEnv)
    (cr : Except String ClassifierResponse) (rr : Except String String)
    (v : VisualCall) (n : Except String (Option String))
    (q : String) (d : Option Int) :
    (runPipeline env cr rr v n q d).1.classification =
      (match cr with
       | Except.error _ => some "placement_topic"
       | Except.ok r => some r.classification) := by
  rcases cr with msg | r
  · have hroute : (routeAfterSupervisor
        (runSupervisor (Except.error msg) (createInitialState q d)) == "end") = false := rfl
    simp only [runPipeline, hroute, Bool.false_eq_true, if_false]
    rw [(runMediaEngine_preserves env v n _).2.2, (runResearcher_preserves rr _).2]
    rfl
  · by_cases h : r.classification = "placement_topic"
    · have hroute : (routeAfterSupervisor
          (runSupervisor (Except.ok r) (createInitialState q d)) == "end") = false := by
        unfold routeAfterSupervisor runSupervisor
        simp [h]
      simp only [runPipeline, hroute, Bool.false_eq_true, if_false]
      rw [(runMediaEngine_preserves env v n _).2.2, (runResearcher_preserves rr _).2]
      unfold runSupervisor
      simp [h]
    · have hroute : (routeAfterSupervisor
          (runSupervisor (Except.ok r) (createInitialState q d)) == "end") = true := by
        unfold routeAfterSupervisor runSupervisor
        simp [h]
      simp only [runPipeline, hroute, if_true]
      unfold runSupervisor
      simp [h]
